import Mathlib

/-!
Shallow embedding of the trigger/policy-driven consistency layer of the
tutoring-marketplace schema (Supabase SQL migrations in the repository).

The authoritative source is the second schema revision (the one that defines
the triggers `handle_new_user`, `calculate_transaction_amounts` and
`update_teacher_stats`, and the row-level-security policies for lessons,
bookings, transactions and reviews).  Where the two revisions differ this is
noted at the relevant definition.

Modelling conventions:
* `DECIMAL(10,2)` money columns are integers counting hundredths (cents);
  `DECIMAL(3,2)` rating columns are integers counting hundredths of a star.
  A Postgres `numeric(p,2)` assignment rounds half away from zero, which
  `roundHalfAwayDiv` reproduces on the integer representation.
* `uuid` keys are `Nat`; `timestamptz` values are a logical `Nat` clock
  (`DB.now`), enough to observe that `updated_at` is touched by a write.
* A caller is `Option Nat`: `some uid` is an authenticated user subject to
  row-level security; `none` is the service role, which bypasses it.
* Fallible operations return `Except DBError DB`; an `.error` result carries
  no new state, so a failed operation leaves the store unchanged.
* Columns that no claim observes (meeting links, free-text notes, avatar and
  phone fields, created_at) are omitted from the row structures.
-/

namespace Moaalimy

/-- The enum `user_type` from the schema. -/
inductive UserType where
  | teacher
  | student
  | admin
deriving DecidableEq

/-- The enum `booking_status` from the schema. -/
inductive BookingStatus where
  | pending
  | confirmed
  | completed
  | cancelled
deriving DecidableEq

/-- The enum `payment_status` from the schema. -/
inductive PaymentStatus where
  | pending
  | completed
  | failed
  | refunded
deriving DecidableEq

/-- Error kinds surfaced by the store (the taxonomy used by the
constraint and policy layer: key conflicts, policy denials, check-constraint
violations, lifecycle violations, missing rows). -/
inductive DBError where
  | notFound
  | permissionDenied
  | validationError
  | conflictError
  | stateError
deriving DecidableEq

/-- A row of `profiles`.  `rating` is the `DECIMAL(3,2)` aggregate in
hundredths of a star (so `133` renders as `1.33`). -/
structure Profile where
  id : Nat
  email : String
  full_name : String
  user_type : UserType
  rating : Int
  updated_at : Nat
deriving DecidableEq

/-- A row of `lessons` (`price` in cents). -/
structure Lesson where
  id : Nat
  teacher_id : Nat
  subject_id : Nat
  price : Int
  is_active : Bool
deriving DecidableEq

/-- A row of `bookings`. -/
structure Booking where
  id : Nat
  lesson_id : Nat
  student_id : Nat
  teacher_id : Nat
  scheduled_at : Nat
  status : BookingStatus
deriving DecidableEq

/-- A row of `transactions` (amounts in cents). -/
structure Transaction where
  id : Nat
  booking_id : Nat
  student_id : Nat
  teacher_id : Nat
  total_amount : Int
  platform_commission : Int
  teacher_amount : Int
  payment_status : PaymentStatus
deriving DecidableEq

/-- A row of `reviews`; the table carries `CHECK (rating >= 1 AND rating <= 5)`. -/
structure Review where
  id : Nat
  booking_id : Nat
  student_id : Nat
  teacher_id : Nat
  rating : Nat
  comment : Option String
deriving DecidableEq

/-- The persistent state: the five relations the claims are about, a
key generator for `uuid_generate_v4()` defaults, and a logical clock for
`timezone('utc', now())`. -/
structure DB where
  profiles : List Profile
  lessons : List Lesson
  bookings : List Booking
  transactions : List Transaction
  reviews : List Review
  nextId : Nat
  now : Nat
deriving DecidableEq

deriving instance DecidableEq for Except

/-- Look up a profile by primary key. -/
def findProfile (db : DB) (uid : Nat) : Option Profile :=
  db.profiles.find? (fun p => p.id == uid)

/-- Look up a lesson by primary key. -/
def findLesson (db : DB) (lid : Nat) : Option Lesson :=
  db.lessons.find? (fun l => l.id == lid)

/-- Look up a booking by primary key. -/
def findBooking (db : DB) (bid : Nat) : Option Booking :=
  db.bookings.find? (fun b => b.id == bid)

/-- The `EXISTS (SELECT 1 FROM profiles WHERE id = auth.uid() AND
user_type = 'admin')` predicate used by several policies. -/
def isAdmin (db : DB) (uid : Nat) : Bool :=
  db.profiles.any (fun p => p.id == uid && p.user_type == UserType.admin)

/-- Whether a fallible write went through. -/
def succeeds (r : Except DBError DB) : Bool :=
  match r with
  | .ok _ => true
  | .error _ => false

/-- Rounding of the fraction `num / den` to the nearest integer, halves away
from zero: the rounding Postgres applies when an exact `numeric` value is
assigned to a column of smaller scale. -/
def roundHalfAwayDiv (num : Int) (den : Nat) : Int :=
  if 0 ≤ num then ((2 * num.toNat + den) / (2 * den) : Nat)
  else -(((2 * (-num).toNat + den) / (2 * den) : Nat))

/-- The trigger function `calculate_transaction_amounts` (`BEFORE INSERT OR
UPDATE ON transactions`): `NEW.platform_commission = NEW.total_amount * 0.10`
(the product is exact in `numeric` and is rounded to the column scale of two
decimals on assignment), then
`NEW.teacher_amount = NEW.total_amount - NEW.platform_commission`. -/
def calculate_transaction_amounts (row : Transaction) : Transaction :=
  let c := roundHalfAwayDiv row.total_amount 10
  { row with platform_commission := c, teacher_amount := row.total_amount - c }

/-- INSERT into `transactions`.  The row-level-security insert policy
`System can insert transactions` is `WITH CHECK (true)`, so every caller
passes it; the primary key still rejects a duplicate id; the `BEFORE INSERT`
trigger rewrites the commission columns. -/
def insertTransaction (db : DB) (_caller : Option Nat) (row : Transaction) :
    Except DBError DB :=
  if db.transactions.any (fun t => t.id == row.id) then .error .conflictError
  else .ok { db with transactions := db.transactions ++ [calculate_transaction_amounts row] }

/-- UPDATE of a `transactions` row, supplying `total_amount`,
`platform_commission` and `teacher_amount`.  The schema declares no UPDATE
policy on `transactions`, so under row-level security only the service role
(`caller = none`) can update; the `BEFORE UPDATE` trigger rewrites the
commission columns of the new row. -/
def updateTransaction (db : DB) (caller : Option Nat) (txId : Nat)
    (newTotal newCommission newTeacher : Int) : Except DBError DB :=
  match caller with
  | some _ => .error .permissionDenied
  | none =>
    if db.transactions.any (fun t => t.id == txId) then
      .ok { db with transactions := db.transactions.map (fun t =>
        if t.id == txId then
          calculate_transaction_amounts { t with
            total_amount := newTotal,
            platform_commission := newCommission,
            teacher_amount := newTeacher }
        else t) }
    else .error .notFound

/-- The ratings of the reviews stored for one teacher
(`SELECT rating FROM reviews WHERE teacher_id = tid`). -/
def ratingsOf (reviews : List Review) (tid : Nat) : List Nat :=
  (reviews.filter (fun r => r.teacher_id == tid)).map (fun r => r.rating)

/-- `COALESCE(AVG(rating::decimal), 0)` as stored into the `DECIMAL(3,2)`
column: `0` when the teacher has no reviews, otherwise the mean rounded to
two decimals (hundredths representation). -/
def aggRating (rs : List Nat) : Int :=
  if rs.length = 0 then 0 else roundHalfAwayDiv (100 * (rs.sum : Int)) rs.length

/-- The trigger function `update_teacher_stats` (`AFTER INSERT OR UPDATE ON
reviews`): installs the new review list and recomputes the target teacher's
profile `rating` from it, touching the profile's `updated_at`. -/
def update_teacher_stats (db : DB) (reviews2 : List Review) (tid : Nat) : DB :=
  { db with
    reviews := reviews2,
    profiles := db.profiles.map (fun p =>
      if p.id == tid then
        { p with rating := aggRating (ratingsOf reviews2 tid), updated_at := db.now }
      else p) }

/-- INSERT into `reviews` by an authenticated student.  The insert policy
`Students can insert reviews for their bookings` requires the new row's
`student_id` to be the caller (which it is, by construction here) and a
booking with this id, owned by the caller, in status `completed`; the table
check constraint requires the rating to lie in `[1, 5]`; the `AFTER INSERT`
trigger then recomputes the teacher aggregate. -/
def submitReview (db : DB) (caller : Nat) (bookingId : Nat) (rating : Nat)
    (comment : Option String) : Except DBError DB :=
  match db.bookings.find? (fun b => b.id == bookingId) with
  | none => .error .permissionDenied
  | some b =>
    if b.student_id = caller ∧ b.status = BookingStatus.completed then
      if 1 ≤ rating ∧ rating ≤ 5 then
        let row : Review :=
          { id := db.nextId, booking_id := bookingId,
            student_id := caller, teacher_id := b.teacher_id,
            rating := rating, comment := comment }
        .ok (update_teacher_stats { db with nextId := db.nextId + 1 }
              (db.reviews ++ [row]) b.teacher_id)
      else .error .validationError
    else .error .permissionDenied

/-- UPDATE of a `reviews` row.  The policy `Students can update their own
reviews` requires the caller to own the review; the check constraint bounds
the new rating; the `AFTER UPDATE` trigger recomputes the aggregate. -/
def updateReview (db : DB) (caller : Nat) (reviewId : Nat) (newRating : Nat)
    (newComment : Option String) : Except DBError DB :=
  match db.reviews.find? (fun r => r.id == reviewId) with
  | none => .error .notFound
  | some r =>
    if r.student_id = caller then
      if 1 ≤ newRating ∧ newRating ≤ 5 then
        .ok (update_teacher_stats db
          (db.reviews.map (fun x =>
            if x.id == reviewId then { x with rating := newRating, comment := newComment }
            else x))
          r.teacher_id)
      else .error .validationError
    else .error .permissionDenied

/-- The SELECT visibility of a lesson row for an authenticated caller, the
union of the select policies on `lessons`: `Anyone can view active lessons`
(`is_active = true`), `Teachers can view their own lessons`
(`teacher_id = auth.uid()`), and the admin view-all policy. -/
def lessonVisible (db : DB) (caller : Nat) (l : Lesson) : Bool :=
  l.is_active || l.teacher_id == caller || isAdmin db caller

/-- The public listing: the active-lesson query as filtered through the
caller's row visibility. -/
def listActiveLessons (db : DB) (caller : Nat) : List Lesson :=
  (db.lessons.filter (fun l => lessonVisible db caller l)).filter (fun l => l.is_active)

/-- The profile row the identity-bootstrap trigger inserts: the new
identity's id and email, name and role from the metadata with the source
defaults (name `مستخدم جديد`, role `student`), rating 0. -/
def newProfile (uid : Nat) (email : String) (metaName : Option String)
    (metaType : Option UserType) (now : Nat) : Profile :=
  { id := uid, email := email,
    full_name := metaName.getD "مستخدم جديد",
    user_type := metaType.getD UserType.student,
    rating := 0, updated_at := now }

/-- The trigger function `handle_new_user` (`AFTER INSERT ON auth.users`):
inserts one profile for the fresh identity.  `profiles.id` is the primary
key, so a second insert for the same id raises a uniqueness violation that
propagates out of the trigger. -/
def handle_new_user (db : DB) (uid : Nat) (email : String)
    (metaName : Option String) (metaType : Option UserType) : Except DBError DB :=
  if db.profiles.any (fun p => p.id == uid) then .error .conflictError
  else .ok { db with profiles := db.profiles ++ [newProfile uid email metaName metaType db.now] }

/-- Modelled from the spec: the front-end `createBooking` operation is not
among the source files (only the `bookings` schema and its row-level-security
policies are).  Per the spec the operation requires the referenced lesson to
be active (a lifecycle error otherwise) and denormalizes the teacher id from
the lesson; the caller-must-be-the-student check is the insert policy
`Students can insert their own bookings` and the initial `pending` status is
the schema column default, both taken from the source. -/
def createBooking (db : DB) (caller : Nat) (lessonId : Nat) (studentId : Nat)
    (scheduledAt : Nat) : Except DBError (DB × Booking) :=
  if caller = studentId then
    match db.lessons.find? (fun l => l.id == lessonId) with
    | none => .error .notFound
    | some l =>
      if l.is_active then
        let bk : Booking :=
          { id := db.nextId, lesson_id := lessonId,
            student_id := studentId, teacher_id := l.teacher_id,
            scheduled_at := scheduledAt, status := BookingStatus.pending }
        .ok ({ db with bookings := db.bookings ++ [bk], nextId := db.nextId + 1 }, bk)
      else .error .stateError
  else .error .permissionDenied

/-- A client-issued operation against the store. -/
inductive Op where
  | register (uid : Nat) (email : String) (metaName : Option String) (metaType : Option UserType)
  | book (caller lessonId studentId scheduledAt : Nat)
  | payInsert (caller : Option Nat) (row : Transaction)
  | payUpdate (caller : Option Nat) (txId : Nat) (newTotal newCommission newTeacher : Int)
  | review (caller bookingId rating : Nat) (comment : Option String)
  | reviewUpdate (caller reviewId newRating : Nat) (newComment : Option String)

/-- Apply one operation; a failed operation leaves the store unchanged. -/
def applyOp (db : DB) (op : Op) : DB :=
  match op with
  | .register u e n t =>
    match handle_new_user db u e n t with | .ok d => d | .error _ => db
  | .book c l s t =>
    match createBooking db c l s t with | .ok r => r.1 | .error _ => db
  | .payInsert c r =>
    match insertTransaction db c r with | .ok d => d | .error _ => db
  | .payUpdate c i t pc ta =>
    match updateTransaction db c i t pc ta with | .ok d => d | .error _ => db
  | .review c b r m =>
    match submitReview db c b r m with | .ok d => d | .error _ => db
  | .reviewUpdate c i r m =>
    match updateReview db c i r m with | .ok d => d | .error _ => db

/-- The empty store a fresh deployment starts from. -/
def db0 : DB :=
  { profiles := [], lessons := [], bookings := [], transactions := [],
    reviews := [], nextId := 1, now := 0 }

/-- Run a sequence of operations from the empty store. -/
def run (ops : List Op) : DB := ops.foldl applyOp db0

/-- The numeric value a `DECIMAL(3,2)` hundredths representation renders as. -/
def ratingValue (r : Int) : ℚ := (r : ℚ) / 100

/-- The exact arithmetic mean of a list of ratings. -/
def meanValue (rs : List Nat) : ℚ := (rs.sum : ℚ) / (rs.length : ℚ)

/-- The bound ratings invariant: every stored profile aggregate lies in
[0.00, 5.00] and every stored review rating in [1, 5]. -/
def RatingsInv (db : DB) : Prop :=
  (∀ p ∈ db.profiles, 0 ≤ p.rating ∧ p.rating ≤ 500) ∧
  (∀ r ∈ db.reviews, 1 ≤ r.rating ∧ r.rating ≤ 5)

/-- Concrete row for the C1 witness: total 100.00 with caller-supplied
garbage in the derived columns. -/
def txC1 : Transaction :=
  { id := 1, booking_id := 1, student_id := 2, teacher_id := 3,
    total_amount := 10000, platform_commission := 123, teacher_amount := 456,
    payment_status := PaymentStatus.pending }

/-- The state produced by the C1 witness insert. -/
def dbC1out : DB :=
  match insertTransaction db0 none txC1 with
  | .ok d => d
  | .error _ => db0

/-- Scenario for the C3 counterexample: teacher 1 already holds two reviews
with rating 1 (for completed bookings 11 and 12) and student 2 has the
completed booking 10 still unreviewed. -/
def dbC3 : DB :=
  { profiles := [
      { id := 1, email := "t", full_name := "T", user_type := UserType.teacher,
        rating := 100, updated_at := 0 },
      { id := 2, email := "s", full_name := "S", user_type := UserType.student,
        rating := 0, updated_at := 0 }],
    lessons := [{ id := 4, teacher_id := 1, subject_id := 3, price := 10000, is_active := true }],
    bookings := [
      { id := 10, lesson_id := 4, student_id := 2, teacher_id := 1,
        scheduled_at := 1, status := BookingStatus.completed },
      { id := 11, lesson_id := 4, student_id := 2, teacher_id := 1,
        scheduled_at := 2, status := BookingStatus.completed },
      { id := 12, lesson_id := 4, student_id := 2, teacher_id := 1,
        scheduled_at := 3, status := BookingStatus.completed }],
    transactions := [],
    reviews := [
      { id := 15, booking_id := 11, student_id := 2, teacher_id := 1,
        rating := 1, comment := none },
      { id := 16, booking_id := 12, student_id := 2, teacher_id := 1,
        rating := 1, comment := none }],
    nextId := 20, now := 7 }

/-- The state after the C3 counterexample insert. -/
def dbC3out : DB :=
  match submitReview dbC3 2 10 2 none with
  | .ok d => d
  | .error _ => db0

/-- Scenario lesson store for the C6 witness: one active lesson owned by
teacher 9. -/
def dbC6 : DB :=
  { profiles := [], transactions := [], reviews := [], bookings := [],
    lessons := [{ id := 5, teacher_id := 9, subject_id := 1, price := 100, is_active := true }],
    nextId := 30, now := 0 }

/-- A throwaway booking used as the impossible-branch fallback below. -/
def noBooking : Booking :=
  { id := 0, lesson_id := 0, student_id := 0, teacher_id := 0,
    scheduled_at := 0, status := BookingStatus.pending }

/-- The state and booking produced by the C6 witness call. -/
def dbC6res : DB × Booking :=
  match createBooking dbC6 2 5 2 9 with
  | .ok r => r
  | .error _ => (db0, noBooking)

/-- An inactive lesson for the C7 witness. -/
def lC7 : Lesson :=
  { id := 6, teacher_id := 9, subject_id := 1, price := 100, is_active := false }

/-- Store holding only the inactive lesson for the C7 witness. -/
def dbC7 : DB :=
  { db0 with lessons := [lC7] }

/-- Scenario for C8: a student (2), a teacher (3), and a booking between
them; no admin involved in the write. -/
def dbC8 : DB :=
  { profiles := [
      { id := 2, email := "s", full_name := "S", user_type := UserType.student,
        rating := 0, updated_at := 0 },
      { id := 3, email := "t", full_name := "T", user_type := UserType.teacher,
        rating := 0, updated_at := 0 }],
    lessons := [{ id := 4, teacher_id := 3, subject_id := 1, price := 10000, is_active := true }],
    bookings := [
      { id := 7, lesson_id := 4, student_id := 2, teacher_id := 3,
        scheduled_at := 1, status := BookingStatus.completed }],
    transactions := [], reviews := [], nextId := 40, now := 0 }

/-- The transaction row the student tries to write directly in C8. -/
def txC8 : Transaction :=
  { id := 50, booking_id := 7, student_id := 2, teacher_id := 3,
    total_amount := 10000, platform_commission := 0, teacher_amount := 0,
    payment_status := PaymentStatus.pending }

/-- Scenario for C9: teacher 1, student 2, one completed booking 10, no
reviews yet. -/
def dbC9 : DB :=
  { profiles := [
      { id := 1, email := "t", full_name := "T", user_type := UserType.teacher,
        rating := 0, updated_at := 0 },
      { id := 2, email := "s", full_name := "S", user_type := UserType.student,
        rating := 0, updated_at := 0 }],
    lessons := [{ id := 4, teacher_id := 1, subject_id := 1, price := 10000, is_active := true }],
    bookings := [
      { id := 10, lesson_id := 4, student_id := 2, teacher_id := 1,
        scheduled_at := 1, status := BookingStatus.completed }],
    transactions := [], reviews := [], nextId := 20, now := 3 }

/-- State after the first C9 review (rating 5) for booking 10. -/
def dbC9a : DB :=
  match submitReview dbC9 2 10 5 none with
  | .ok d => d
  | .error _ => db0

/-- State after the second C9 review submission (rating 1) for the same
booking by the same student. -/
def dbC9b : DB :=
  match submitReview dbC9a 2 10 1 none with
  | .ok d => d
  | .error _ => db0

/-- Profile produced by the registration used in the C10 witness. -/
def pC10 : Profile := newProfile 1 "a" none none 0

/-- `roundHalfAwayDiv n 10` is the rounding of `n / 10` to the nearest
integer with halves rounded up (for nonnegative `n`): it is the unique `k`
with `n` in the window `[10k - 5, 10k + 4]`. -/
lemma roundHalfAwayDiv_ten_bracket (n : Int) (h : 0 ≤ n) :
    10 * roundHalfAwayDiv n 10 - 5 ≤ n ∧ n ≤ 10 * roundHalfAwayDiv n 10 + 4 := by
  unfold roundHalfAwayDiv
  rw [if_pos h]
  obtain ⟨m, rfl⟩ := Int.eq_ofNat_of_zero_le h
  simp only [Int.toNat_ofNat]
  have h1 := Nat.div_add_mod (2 * m + 10) 20
  have h2 : (2 * m + 10) % 20 < 20 := Nat.mod_lt _ (by omega)
  omega

/-- The stored rating aggregate is never negative. -/
lemma aggRating_nonneg (rs : List Nat) : 0 ≤ aggRating rs := by
  unfold aggRating
  split
  · exact le_refl 0
  · unfold roundHalfAwayDiv
    rw [if_pos (by positivity)]
    exact Int.ofNat_nonneg _

/-- When every rating is at most five stars, the stored aggregate is at most
five stars (500 hundredths). -/
lemma aggRating_le (rs : List Nat) (h : ∀ r ∈ rs, r ≤ 5) : aggRating rs ≤ 500 := by
  unfold aggRating
  split
  · omega
  · have hsum : rs.sum ≤ rs.length * 5 := by
      have := List.sum_le_card_nsmul rs 5 h
      simpa [smul_eq_mul] using this
    unfold roundHalfAwayDiv
    rw [if_pos (by positivity)]
    have hcast : (100 * (rs.sum : Int)).toNat = 100 * rs.sum := by
      omega
    rw [hcast]
    have hnat : (2 * (100 * rs.sum) + rs.length) / (2 * rs.length) < 501 := by
      rw [Nat.div_lt_iff_lt_mul (by omega)]
      omega
    omega

/-- C1: for every transaction write (insert, or update of `total_amount`)
with a nonnegative total, the stored platform commission is
`round(total_amount * 0.10)` — rounded to the cent, halves up, which the
window `[10c - 5, 10c + 4]` characterises — and the stored teacher amount is
the total minus that commission, so the two stored parts sum back to the
total exactly; the recomputation is applied by the trigger on every insert
and every update. -/
theorem C1_commission_recomputed (db : DB) (c : Option Nat) (row : Transaction)
    (db2 : DB) (ht : 0 ≤ row.total_amount) :
    (insertTransaction db c row = .ok db2 →
      ∃ t, db2.transactions = db.transactions ++ [t] ∧
        t.total_amount = row.total_amount ∧
        t.platform_commission = roundHalfAwayDiv row.total_amount 10 ∧
        10 * t.platform_commission - 5 ≤ t.total_amount ∧
        t.total_amount ≤ 10 * t.platform_commission + 4 ∧
        t.platform_commission + t.teacher_amount = t.total_amount) ∧
    (∀ txId nt npc nta, 0 ≤ nt →
      updateTransaction db c txId nt npc nta = .ok db2 →
      ∀ t ∈ db2.transactions, t.id = txId →
        t.total_amount = nt ∧
        t.platform_commission = roundHalfAwayDiv t.total_amount 10 ∧
        10 * t.platform_commission - 5 ≤ t.total_amount ∧
        t.total_amount ≤ 10 * t.platform_commission + 4 ∧
        t.platform_commission + t.teacher_amount = t.total_amount) := by
  constructor
  · intro h
    unfold insertTransaction at h
    by_cases hdup : (db.transactions.any fun t => t.id == row.id) = true
    · rw [if_pos hdup] at h
      exact absurd h (by simp)
    · rw [if_neg hdup] at h
      simp only [Except.ok.injEq] at h
      subst h
      obtain ⟨hb1, hb2⟩ := roundHalfAwayDiv_ten_bracket row.total_amount ht
      exact ⟨calculate_transaction_amounts row, rfl, rfl, rfl, hb1, hb2, by
        simp only [calculate_transaction_amounts]
        ring⟩
  · intro txId nt npc nta hnt h t htmem htid
    cases c with
    | some u =>
      exact absurd h (by simp [updateTransaction])
    | none =>
      unfold updateTransaction at h
      by_cases hfound : (db.transactions.any fun t => t.id == txId) = true
      · rw [if_pos hfound] at h
        simp only [Except.ok.injEq] at h
        subst h
        simp only [List.mem_map] at htmem
        obtain ⟨x, hx, rfl⟩ := htmem
        by_cases hxid : (x.id == txId) = true
        · simp only [hxid, if_true]
          obtain ⟨hb1, hb2⟩ := roundHalfAwayDiv_ten_bracket nt hnt
          refine ⟨rfl, rfl, hb1, hb2, by
            simp only [calculate_transaction_amounts]
            ring⟩
        · rw [if_neg (by simpa using hxid)] at htid
          exact absurd (by simpa using htid) hxid
      · rw [if_neg hfound] at h
        exact absurd h (by simp)

/-- Witness for C1: the theorem applied at the concrete insert of `txC1`
(total 100.00 stores commission 10.00 and teacher amount 90.00). -/
theorem C1_commission_recomputed_witness :
    ∃ t, dbC1out.transactions = db0.transactions ++ [t] ∧
      t.total_amount = txC1.total_amount ∧
      t.platform_commission = roundHalfAwayDiv txC1.total_amount 10 ∧
      10 * t.platform_commission - 5 ≤ t.total_amount ∧
      t.total_amount ≤ 10 * t.platform_commission + 4 ∧
      t.platform_commission + t.teacher_amount = t.total_amount :=
  (C1_commission_recomputed db0 none txC1 dbC1out (by decide)).1 (by decide)

/-- C2: the stored commission split is a function of `total_amount` alone.
Two inserts whose supplied rows differ only in the caller-supplied
`platform_commission` and `teacher_amount` produce identical results, and two
updates supplying the same new total but different commission fields produce
identical results: the trigger overwrites both derived columns inside the
same write, so no caller-supplied commission value is ever observable. -/
theorem C2_commission_noninterference (db : DB) (c : Option Nat)
    (row : Transaction) (x y : Int) (txId : Nat) (nt a1 b1 a2 b2 : Int) :
    insertTransaction db c { row with platform_commission := x, teacher_amount := y } =
      insertTransaction db c row ∧
    updateTransaction db c txId nt a1 b1 = updateTransaction db c txId nt a2 b2 :=
  ⟨rfl, rfl⟩

/-- C3 counterexample: a successful review insert (rating 2, joining two
stored ratings of 1) leaves the teacher's stored rating at 1.33 — the mean
4/3 rounded to the `DECIMAL(3,2)` column scale — which is not equal to the
arithmetic mean of the stored ratings, so the claim as stated fails. -/
theorem C3_exact_mean_cex :
    submitReview dbC3 2 10 2 none = .ok dbC3out ∧
    (findProfile dbC3out 1).map (fun p => p.rating) = some 133 ∧
    ¬ ratingValue 133 = meanValue (ratingsOf dbC3out.reviews 1) := by
  refine ⟨by decide, by decide, ?_⟩
  intro h
  have : (133 : ℚ) / 100 = (4 : ℚ) / 3 := by
    simpa [ratingValue, meanValue, dbC3out, dbC3, submitReview, update_teacher_stats,
      ratingsOf] using h
  norm_num at this

/-- C3 (amended): after every successful review insert or update, the target
teacher's stored rating equals `aggRating` of the ratings then stored for
that teacher — the arithmetic mean rounded half away from zero to the two
decimal places the `DECIMAL(3,2)` column holds, and 0 when no reviews exist —
and the same write sets the teacher's `updated_at` to the write time. -/
theorem C3_rating_recomputed (db : DB) (caller bid rat : Nat)
    (com : Option String) (db2 : DB) :
    (submitReview db caller bid rat com = .ok db2 →
      ∃ b, findBooking db bid = some b ∧
        ∀ p ∈ db2.profiles, p.id = b.teacher_id →
          p.rating = aggRating (ratingsOf db2.reviews b.teacher_id) ∧
          p.updated_at = db.now) ∧
    (∀ rid, updateReview db caller rid rat com = .ok db2 →
      ∃ r, db.reviews.find? (fun x => x.id == rid) = some r ∧
        ∀ p ∈ db2.profiles, p.id = r.teacher_id →
          p.rating = aggRating (ratingsOf db2.reviews r.teacher_id) ∧
          p.updated_at = db.now) := by
  constructor
  · intro h
    unfold submitReview at h
    split at h
    · exact absurd h (by simp)
    · rename_i b hfind
      split at h
      · split at h
        · simp only [Except.ok.injEq] at h
          subst h
          refine ⟨b, hfind, ?_⟩
          intro p hp hpid
          unfold update_teacher_stats at hp ⊢
          simp only [List.mem_map] at hp
          obtain ⟨q, hq, rfl⟩ := hp
          by_cases hqid : (q.id == b.teacher_id) = true
          · simp [hqid]
          · rw [if_neg (by simpa using hqid)] at hpid ⊢
            exact absurd (by simpa using hpid) hqid
        · exact absurd h (by simp)
      · exact absurd h (by simp)
  · intro rid h
    unfold updateReview at h
    split at h
    · exact absurd h (by simp)
    · rename_i r hfind
      split at h
      · split at h
        · simp only [Except.ok.injEq] at h
          subst h
          refine ⟨r, hfind, ?_⟩
          intro p hp hpid
          unfold update_teacher_stats at hp ⊢
          simp only [List.mem_map] at hp
          obtain ⟨q, hq, rfl⟩ := hp
          by_cases hqid : (q.id == r.teacher_id) = true
          · simp [hqid]
          · rw [if_neg (by simpa using hqid)] at hpid ⊢
            exact absurd (by simpa using hpid) hqid
        · exact absurd h (by simp)
      · exact absurd h (by simp)

/-- Witness for the amended C3: the concrete insert of a rating-2 review in
the `dbC3` scenario yields a teacher profile holding the rounded mean and the
write-time `updated_at`. -/
theorem C3_rating_recomputed_witness :
    ∃ b, findBooking dbC3 10 = some b ∧
      ∀ p ∈ dbC3out.profiles, p.id = b.teacher_id →
        p.rating = aggRating (ratingsOf dbC3out.reviews b.teacher_id) ∧
        p.updated_at = dbC3.now :=
  (C3_rating_recomputed dbC3 2 10 2 none dbC3out).1 (by decide)

/-- C4: a review submission succeeds exactly when the referenced booking
exists, the caller is that booking's student, the booking is `completed`,
and the rating lies in [1, 5]; in every other case it fails with a
permission or validation error, and a failed call yields no new state. -/
theorem C4_submitReview_guarded (db : DB) (caller bid rat : Nat) (com : Option String) :
    (∃ db2, submitReview db caller bid rat com = .ok db2) ↔
      ∃ b, findBooking db bid = some b ∧ b.student_id = caller ∧
        b.status = BookingStatus.completed ∧ 1 ≤ rat ∧ rat ≤ 5 := by
  unfold submitReview findBooking
  cases hfind : db.bookings.find? (fun b => b.id == bid) with
  | none => simp
  | some b =>
    by_cases h1 : b.student_id = caller ∧ b.status = BookingStatus.completed
    · by_cases h2 : 1 ≤ rat ∧ rat ≤ 5
      · simp [h1, h2, h1.1, h1.2, h2.1, h2.2]
      · simp only [if_pos h1, if_neg h2]
        simp [h1.1, h1.2]
        intro h3
        omega
    · simp only [if_neg h1]
      simp
      intro hs hc
      exact absurd ⟨hs, hc⟩ h1

/-- C5: bootstrapping an identity with a fresh id creates exactly one profile
with that id; a second bootstrap event for the same id is rejected with the
uniqueness-conflict error, and the first profile stays readable unchanged. -/
theorem C5_bootstrap_unique (db : DB) (uid : Nat) (e1 e2 : String)
    (n1 n2 : Option String) (t1 t2 : Option UserType)
    (h : findProfile db uid = none) :
    ∃ db2, handle_new_user db uid e1 n1 t1 = .ok db2 ∧
      (db2.profiles.filter (fun p => p.id == uid)).length = 1 ∧
      handle_new_user db2 uid e2 n2 t2 = .error DBError.conflictError ∧
      findProfile db2 uid = some (newProfile uid e1 n1 t1 db.now) := by
  unfold findProfile at h
  rw [List.find?_eq_none] at h
  refine ⟨{ db with profiles := db.profiles ++ [newProfile uid e1 n1 t1 db.now] }, ?_, ?_, ?_, ?_⟩
  · unfold handle_new_user
    rw [if_neg (by rw [Bool.not_eq_true, List.any_eq_false]; exact h)]
  · simp only [List.filter_append]
    rw [List.filter_eq_nil_iff.2 h]
    simp [newProfile]
  · unfold handle_new_user
    rw [if_pos (by simp [newProfile])]
  · unfold findProfile
    rw [List.find?_append, List.find?_eq_none.2 h]
    simp [newProfile]

/-- Witness for C5: bootstrapping id 1 on the empty store succeeds once and
conflicts the second time. -/
theorem C5_bootstrap_unique_witness :
    ∃ db2, handle_new_user db0 1 "a" none none = .ok db2 ∧
      (db2.profiles.filter (fun p => p.id == 1)).length = 1 ∧
      handle_new_user db2 1 "b" none none = .error DBError.conflictError ∧
      findProfile db2 1 = some (newProfile 1 "a" none none db0.now) :=
  C5_bootstrap_unique db0 1 "a" "b" none none none none (by decide)

/-- C6: `createBooking` (caller the student) succeeds exactly when the
referenced lesson exists and is active, and the booking it creates starts in
`pending` with the teacher id denormalized from the lesson. -/
theorem C6_createBooking_spec (db : DB) (caller lid sid t : Nat) :
    ((∃ res, createBooking db caller lid sid t = .ok res) ↔
      (caller = sid ∧ ∃ l, findLesson db lid = some l ∧ l.is_active = true)) ∧
    (∀ db2 bk, createBooking db caller lid sid t = .ok (db2, bk) →
      bk.status = BookingStatus.pending ∧ bk.student_id = sid ∧
        ∃ l, findLesson db lid = some l ∧ bk.teacher_id = l.teacher_id) := by
  constructor
  · unfold createBooking findLesson
    by_cases hc : caller = sid
    · cases hfind : db.lessons.find? (fun l => l.id == lid) with
      | none => simp [hc, hfind]
      | some l =>
        by_cases ha : l.is_active = true
        · simp [hc, ha]
        · simp [hc, ha]
    · simp [hc]
  · intro db2 bk h
    unfold createBooking at h
    split at h
    · split at h
      · exact absurd h (by simp)
      · rename_i l hfind
        split at h
        · simp only [Except.ok.injEq, Prod.mk.injEq] at h
          obtain ⟨h2, h3⟩ := h
          subst h3
          exact ⟨rfl, rfl, l, hfind, rfl⟩
        · exact absurd h (by simp)
    · exact absurd h (by simp)

/-- Witness for C6: student 2 books the active lesson 5 of teacher 9; the
created booking is pending and carries teacher 9. -/
theorem C6_createBooking_spec_witness :
    dbC6res.2.status = BookingStatus.pending ∧ dbC6res.2.student_id = 2 ∧
      ∃ l, findLesson dbC6 5 = some l ∧ dbC6res.2.teacher_id = l.teacher_id :=
  (C6_createBooking_spec dbC6 2 5 2 9).2 dbC6res.1 dbC6res.2 (by decide)

/-- C7: for every caller the public (active-lesson) listing contains exactly
the lessons with the active flag set; an inactive lesson is in no caller's
public listing but remains visible to its owning teacher through the
owner select policy. -/
theorem C7_lesson_listing (db : DB) (caller : Nat) (l : Lesson) :
    listActiveLessons db caller = db.lessons.filter (fun x => x.is_active) ∧
    (l.is_active = false →
      l ∉ listActiveLessons db caller ∧ lessonVisible db l.teacher_id l = true) := by
  constructor
  · unfold listActiveLessons
    rw [List.filter_filter]
    apply List.filter_congr
    intro x hx
    cases hact : x.is_active
    · simp [hact]
    · simp [lessonVisible, hact]
  · intro h0
    constructor
    · intro hmem
      unfold listActiveLessons at hmem
      have hact := (List.mem_filter.1 hmem).2
      rw [h0] at hact
      exact absurd hact (by simp)
    · simp [lessonVisible]

/-- Witness for C7: the inactive lesson `lC7` is absent from an arbitrary
caller's listing yet visible to its owner, teacher 9. -/
theorem C7_lesson_listing_witness :
    lC7 ∉ listActiveLessons dbC7 42 ∧ lessonVisible dbC7 lC7.teacher_id lC7 = true :=
  (C7_lesson_listing dbC7 42 lC7).2 (by decide)

/-- C8 (failing-input evaluation): caller 2 is a student, yet a direct
insert into `transactions` by that student succeeds, because the insert
policy `System can insert transactions` is `WITH CHECK (true)`; the claim
says such a write must fail with a permission error. -/
theorem C8_student_direct_insert :
    (findProfile dbC8 2).map (fun p => p.user_type) = some UserType.student ∧
    succeeds (insertTransaction dbC8 (some 2) txC8) = true := by
  decide

/-- C9 (failing-input evaluation): the same student submits a second review
for the same completed booking; both inserts succeed, two review rows for
booking 10 are stored, and the teacher aggregate 3.00 counts both ratings
(5 and 1) for that single booking; the claim says the second submission must
be applied as an update with exactly one rating counted. -/
theorem C9_second_review_duplicates :
    succeeds (submitReview dbC9 2 10 5 none) = true ∧
    succeeds (submitReview dbC9a 2 10 1 none) = true ∧
    (dbC9b.reviews.filter (fun r => r.booking_id == 10)).length = 2 ∧
    (findProfile dbC9b 1).map (fun p => p.rating) = some 300 := by
  decide

/-- Every rating produced by the per-teacher selection is bounded by the
review-table bound. -/
lemma ratingsOf_le (reviews : List Review) (tid : Nat)
    (h : ∀ r ∈ reviews, 1 ≤ r.rating ∧ r.rating ≤ 5) :
    ∀ x ∈ ratingsOf reviews tid, x ≤ 5 := by
  intro x hx
  unfold ratingsOf at hx
  simp only [List.mem_map, List.mem_filter] at hx
  obtain ⟨r, ⟨hr, _⟩, rfl⟩ := hx
  exact (h r hr).2

/-- The rating-recomputation trigger preserves the bound invariant. -/
lemma update_teacher_stats_inv (db : DB) (reviews2 : List Review) (tid : Nat)
    (hp : ∀ p ∈ db.profiles, 0 ≤ p.rating ∧ p.rating ≤ 500)
    (hr : ∀ r ∈ reviews2, 1 ≤ r.rating ∧ r.rating ≤ 5) :
    RatingsInv (update_teacher_stats db reviews2 tid) := by
  constructor
  · intro p hp2
    unfold update_teacher_stats at hp2
    simp only [List.mem_map] at hp2
    obtain ⟨q, hq, rfl⟩ := hp2
    by_cases hqid : (q.id == tid) = true
    · simp only [hqid, if_true]
      exact ⟨aggRating_nonneg _, aggRating_le _ (ratingsOf_le _ _ hr)⟩
    · rw [if_neg hqid]
      exact hp q hq
  · intro r h2
    exact hr r h2

/-- Identity bootstrap preserves the bound invariant (new profiles start at
rating 0). -/
lemma handle_new_user_inv (db : DB) (u : Nat) (e : String) (n : Option String)
    (t : Option UserType) (d : DB) (hInv : RatingsInv db)
    (h : handle_new_user db u e n t = .ok d) : RatingsInv d := by
  obtain ⟨hp, hr⟩ := hInv
  unfold handle_new_user at h
  split at h
  · exact absurd h (by simp)
  · simp only [Except.ok.injEq] at h
    subst h
    refine ⟨?_, hr⟩
    intro p hp2
    rw [List.mem_append] at hp2
    cases hp2 with
    | inl hl => exact hp p hl
    | inr hr2 =>
      simp only [List.mem_singleton] at hr2
      subst hr2
      refine ⟨?_, ?_⟩ <;> simp [newProfile]

/-- Booking creation touches neither profiles nor reviews. -/
lemma createBooking_inv (db : DB) (c l s t : Nat) (r : DB × Booking)
    (hInv : RatingsInv db) (h : createBooking db c l s t = .ok r) :
    RatingsInv r.1 := by
  obtain ⟨hp, hr⟩ := hInv
  unfold createBooking at h
  split at h
  · split at h
    · exact absurd h (by simp)
    · split at h
      · simp only [Except.ok.injEq] at h
        subst h
        exact ⟨hp, hr⟩
      · exact absurd h (by simp)
  · exact absurd h (by simp)

/-- Transaction insert touches neither profiles nor reviews. -/
lemma insertTransaction_inv (db : DB) (c : Option Nat) (row : Transaction) (d : DB)
    (hInv : RatingsInv db) (h : insertTransaction db c row = .ok d) :
    RatingsInv d := by
  obtain ⟨hp, hr⟩ := hInv
  unfold insertTransaction at h
  split at h
  · exact absurd h (by simp)
  · simp only [Except.ok.injEq] at h
    subst h
    exact ⟨hp, hr⟩

/-- Transaction update touches neither profiles nor reviews. -/
lemma updateTransaction_inv (db : DB) (c : Option Nat) (i : Nat) (a b e : Int) (d : DB)
    (hInv : RatingsInv db) (h : updateTransaction db c i a b e = .ok d) :
    RatingsInv d := by
  obtain ⟨hp, hr⟩ := hInv
  unfold updateTransaction at h
  split at h
  · exact absurd h (by simp)
  · split at h
    · simp only [Except.ok.injEq] at h
      subst h
      exact ⟨hp, hr⟩
    · exact absurd h (by simp)

/-- Review insert preserves the bound invariant: the new review passes the
[1, 5] check and the aggregate is a rounded mean of checked ratings. -/
lemma submitReview_inv (db : DB) (caller bid rat : Nat) (com : Option String) (d : DB)
    (hInv : RatingsInv db) (h : submitReview db caller bid rat com = .ok d) :
    RatingsInv d := by
  obtain ⟨hp, hr⟩ := hInv
  unfold submitReview at h
  split at h
  · exact absurd h (by simp)
  · split at h
    · split at h
      · rename_i h1 h2
        simp only [Except.ok.injEq] at h
        subst h
        apply update_teacher_stats_inv
        · exact hp
        · intro r hr2
          rw [List.mem_append] at hr2
          cases hr2 with
          | inl hl => exact hr r hl
          | inr hr3 =>
            simp only [List.mem_singleton] at hr3
            subst hr3
            exact h2
      · exact absurd h (by simp)
    · exact absurd h (by simp)

/-- Review update preserves the bound invariant. -/
lemma updateReview_inv (db : DB) (caller rid rat : Nat) (com : Option String) (d : DB)
    (hInv : RatingsInv db) (h : updateReview db caller rid rat com = .ok d) :
    RatingsInv d := by
  obtain ⟨hp, hr⟩ := hInv
  unfold updateReview at h
  split at h
  · exact absurd h (by simp)
  · split at h
    · split at h
      · rename_i h1 h2
        simp only [Except.ok.injEq] at h
        subst h
        apply update_teacher_stats_inv
        · exact hp
        · intro r hr2
          simp only [List.mem_map] at hr2
          obtain ⟨x, hx, rfl⟩ := hr2
          by_cases hxid : (x.id == rid) = true
          · simp only [hxid, if_true]
            exact h2
          · rw [if_neg hxid]
            exact hr x hx
      · exact absurd h (by simp)
    · exact absurd h (by simp)

/-- Each operation preserves the bound invariant. -/
lemma applyOp_inv (db : DB) (op : Op) (h : RatingsInv db) :
    RatingsInv (applyOp db op) := by
  cases op with
  | register u e n t =>
    simp only [applyOp]
    cases hh : handle_new_user db u e n t with
    | ok d => exact handle_new_user_inv db u e n t d h hh
    | error _ => exact h
  | book c l s t =>
    simp only [applyOp]
    cases hh : createBooking db c l s t with
    | ok r => exact createBooking_inv db c l s t r h hh
    | error _ => exact h
  | payInsert c r =>
    simp only [applyOp]
    cases hh : insertTransaction db c r with
    | ok d => exact insertTransaction_inv db c r d h hh
    | error _ => exact h
  | payUpdate c i a b e =>
    simp only [applyOp]
    cases hh : updateTransaction db c i a b e with
    | ok d => exact updateTransaction_inv db c i a b e d h hh
    | error _ => exact h
  | review c b r m =>
    simp only [applyOp]
    cases hh : submitReview db c b r m with
    | ok d => exact submitReview_inv db c b r m d h hh
    | error _ => exact h
  | reviewUpdate c i r m =>
    simp only [applyOp]
    cases hh : updateReview db c i r m with
    | ok d => exact updateReview_inv db c i r m d h hh
    | error _ => exact h

/-- The bound invariant is preserved along any operation sequence. -/
lemma foldl_inv (ops : List Op) (db : DB) (h : RatingsInv db) :
    RatingsInv (ops.foldl applyOp db) := by
  induction ops generalizing db with
  | nil => exact h
  | cons o os ih => exact ih (applyOp db o) (applyOp_inv db o h)

/-- C10: after any sequence of operations from the empty store, every stored
profile rating lies in the closed interval [0, 5] (0 to 500 hundredths):
review ratings are checked into [1, 5] and the aggregate is 0 or a rounded
mean of such ratings. -/
theorem C10_rating_in_range (ops : List Op) (p : Profile)
    (hp : p ∈ (run ops).profiles) : 0 ≤ p.rating ∧ p.rating ≤ 500 :=
  (foldl_inv ops db0 ⟨fun _ hx => absurd hx (List.not_mem_nil _),
    fun _ hx => absurd hx (List.not_mem_nil _)⟩).1 p hp

/-- Witness for C10: the profile created by a concrete registration carries a
rating inside the interval. -/
theorem C10_rating_in_range_witness :
    0 ≤ pC10.rating ∧ pC10.rating ≤ 500 :=
  C10_rating_in_range [Op.register 1 "a" none none] pC10 (by decide)

end Moaalimy
